import Mathlib

/-!
Shallow embedding of the map tile cache/fetch subsystem of
src/d_rats/map/maptile.py (class MapTile), together with theorems that
settle the claims about it.

Modelling conventions:
* The transcendental tile arithmetic (deg2num, num2deg) is embedded over
  the real numbers, with Python int() truncation made explicit.
* The process-wide class attributes of MapTile are gathered in MapConfig.
* The on-disk cache state for one fixed tile is a TileFS record holding
  the modification time of the tile image file and of the bad marker
  file, when each exists.  Clock values and modification times are
  integers (seconds).
* The network is a function from attempt number to an abstract outcome
  of urllib.request.urlopen; fetch_url and fetch additionally report how
  many real network attempts they performed.
* Python exceptions are modelled with an Except monad; falling off the
  end of a Python function body yields Python None, modelled by
  Option.none in the result of fetch.
-/

namespace MapTileModel

/-- Geographic position in degrees, mirroring Map.Position. -/
structure MapPosition where
  latitude : ℝ
  longitude : ℝ

/-- Python int() applied to a real value: truncation toward zero. -/
noncomputable def truncInt (r : ℝ) : ℤ :=
  if 0 ≤ r then ⌊r⌋ else ⌈r⌉

/-- MapTile.deg2num: position in degrees to tile numbers at a zoom level.
Mirrors lines 186-202 of maptile.py, with math.radians spelled out. -/
noncomputable def deg2num (zoom : ℕ) (position : MapPosition) : ℤ × ℤ :=
  let lat_rad := position.latitude * Real.pi / 180
  let num : ℝ := 2 ^ zoom
  let xtile := truncInt ((position.longitude + 180) / 360 * num)
  let ytile := truncInt ((1 - Real.log (Real.tan lat_rad + 1 / Real.cos lat_rad)
                    / Real.pi) / 2 * num)
  (xtile, ytile)

/-- MapTile.num2deg: tile numbers to the position of the northwest corner.
Mirrors lines 206-221 of maptile.py, with math.degrees spelled out. -/
noncomputable def num2deg (zoom : ℕ) (xtile ytile : ℤ) : MapPosition :=
  let num : ℝ := 2 ^ zoom
  let lon_deg := xtile / num * 360 - 180
  let lat_rad := Real.arctan (Real.sinh (Real.pi * (1 - 2 * ytile / num)))
  let lat_deg := lat_rad * 180 / Real.pi
  ⟨lat_deg, lon_deg⟩

/-- MapTile.tile_edges: (lat_min, lon_min, lat_max, lon_max) of a tile,
from the northwest corner of the tile and of its southeast neighbour. -/
noncomputable def tile_edges (zoom : ℕ) (x y : ℤ) : ℝ × ℝ × ℝ × ℝ :=
  let northwest := num2deg zoom x y
  let southeast := num2deg zoom (x + 1) (y + 1)
  (southeast.latitude, northwest.longitude,
   northwest.latitude, southeast.longitude)

/-- MapTile.__contains__: strict interior test against tile_edges. -/
def tile_contains_point (zoom : ℕ) (x y : ℤ) (point : MapPosition) : Prop :=
  let e := tile_edges zoom x y
  (e.1 < point.latitude ∧ point.latitude < e.2.2.1) ∧
  (e.2.1 < point.longitude ∧ point.longitude < e.2.2.2)

/-- Process-wide MapTile class attributes, as set by set_map_info and
friends.  The source has two distinct access key attributes: _map_key,
which set_map_info assigns (line 143), and _map_url_key, which
remote_path reads (line 420); both are initialized to None at class
level and nothing in the repository ever assigns _map_url_key. -/
structure MapConfig where
  base_dir : Option String
  connected : Bool
  map_url : String
  map_key : Option String
  map_url_key : Option String
  tile_lifetime : ℤ
  deriving DecidableEq, Repr

/-- MapTile.set_map_info, lines 128-143: stores the base directory, the
map url, and the access key argument into _map_key.  The _map_url_key
attribute that remote_path consults is not assigned here, nor anywhere
else in the repository. -/
def set_map_info (cfg : MapConfig) (base_dir map_url : String)
    (map_url_key : Option String) : MapConfig :=
  { cfg with
    base_dir := some base_dir
    map_url := map_url
    map_key := map_url_key }

/-- Python truthiness test `not self._base_dir`: None and "" are falsy. -/
def py_falsy : Option String → Bool
  | none => true
  | some s => s.isEmpty

/-- On-disk cache state for one fixed tile: modification time of the tile
image file and of the bad marker file, when each exists. -/
structure TileFS where
  tileMTime : Option ℤ
  badMTime : Option ℤ
  deriving DecidableEq, Repr

/-- The Python exceptions the modelled code can raise or let escape. -/
inductive PyExc
  | typeError
  | mapNotConnected
  | mapTileNotFound
  | mapFetchError
  | urlError
  deriving DecidableEq, Repr

/-- Membership in the MapFetchUrlException hierarchy, which is what the
`except MapFetchUrlException` clause of MapTile.fetch catches. -/
def isMapFetchUrlExc : PyExc → Bool
  | .mapNotConnected => true
  | .mapTileNotFound => true
  | .mapFetchError => true
  | _ => false

/-- MapTile.path: the relative path "%d/%d/%d.png" % (zoom, x, y). -/
def tile_path (zoom : ℕ) (x y : ℤ) : String :=
  toString zoom ++ "/" ++ toString x ++ "/" ++ toString y ++ ".png"

/-- MapTile.bad_path: the relative path "%d/%d/%d.bad" % (zoom, x, y). -/
def tile_bad_path (zoom : ℕ) (x y : ℤ) : String :=
  toString zoom ++ "/" ++ toString x ++ "/" ++ toString y ++ ".bad"

/-- MapTile._local_path: None when the base directory is unset (falsy),
otherwise the joined cache path of the tile image file. -/
def _local_path (cfg : MapConfig) (zoom : ℕ) (x y : ℤ) : Option String :=
  if py_falsy cfg.base_dir then none
  else some (cfg.base_dir.getD "" ++ "/" ++ tile_path zoom x y)

/-- MapTile.get_local_tile_path: os.path.exists(None) raises TypeError
when the path is None; otherwise the path is returned when the tile
image file exists and Python None otherwise. -/
def get_local_tile_path (cfg : MapConfig) (zoom : ℕ) (x y : ℤ)
    (fs : TileFS) : Except PyExc (Option String) :=
  match _local_path cfg zoom x y with
  | none => .error .typeError
  | some p => .ok (if fs.tileMTime.isSome then some p else none)

/-- MapTile.is_local, lines 290-310.  The existence check on a None path
raises TypeError.  Otherwise the tile file is consulted first and the bad
marker second; with no file present the result is False; with a file
present the result is True when the lifetime is 0 or the connected flag
is off, and otherwise reflects whether the found file is fresh. -/
def is_local (cfg : MapConfig) (fs : TileFS) (now : ℤ) : Except PyExc Bool :=
  if py_falsy cfg.base_dir then .error .typeError
  else
    match fs.tileMTime <|> fs.badMTime with
    | none => .ok false
    | some t =>
      if cfg.tile_lifetime = 0 || !cfg.connected then .ok true
      else .ok (decide (now - t < cfg.tile_lifetime))

/-- Abstract outcome of one urllib.request.urlopen call. -/
inductive NetOutcome
  | success
  | httpError (code : ℤ)
  | urlError
  deriving DecidableEq, Repr

/-- MapTile.fetch_url, lines 342-381: the result (True, or a raised
exception), the updated file state, and the number of network attempts
actually made (0 or 1).  Only urllib.error.HTTPError is caught: a 404
becomes MapTileNotFound, any other code becomes MapFetchError, and every
other transport failure (URLError: DNS, timeout, reset) escapes raw. -/
def fetch_url (cfg : MapConfig) (fs : TileFS) (now : ℤ) (net : NetOutcome) :
    Except PyExc Bool × TileFS × ℕ :=
  if !cfg.connected then (.error .mapNotConnected, fs, 0)
  else
    match net with
    | .success => (.ok true, { fs with tileMTime := some now }, 1)
    | .httpError code =>
      if code = 404 then (.error .mapTileNotFound, fs, 1)
      else (.error .mapFetchError, fs, 1)
    | .urlError => (.error .urlError, fs, 1)

/-- One iteration of the body of the retry loop in MapTile.fetch, lines
322-340.  `some` means the body leaves the loop, by a return or by an
exception that escapes; `none` would mean the body falls through to the
next iteration, which this body never does because it ends in an
unconditional `return False`.  On success the body returns True; on
MapTileNotFound it creates the bad marker and returns False; on any
other MapFetchUrlException it returns False; any other exception
escapes. -/
def fetch_body (cfg : MapConfig) (fs : TileFS) (now : ℤ) (net : NetOutcome) :
    Option (Except PyExc (Option Bool) × TileFS × ℕ) :=
  match fetch_url cfg fs now net with
  | (.ok _, fs1, att) => some (.ok (some true), fs1, att)
  | (.error .mapTileNotFound, fs1, att) =>
    some (.ok (some false), { fs1 with badMTime := some now }, att)
  | (.error e, fs1, att) =>
    if isMapFetchUrlExc e then some (.ok (some false), fs1, att)
    else some (.error e, fs1, att)

/-- The retry loop `for tile_num in range(10)` of MapTile.fetch: run the
body until it exits, threading the file state and the count of network
attempts; falling off the end of the loop falls off the end of the
function, which in Python returns None. -/
def fetch_loop (cfg : MapConfig) (now : ℤ) (net : ℕ → NetOutcome) :
    ℕ → ℕ → TileFS → ℕ → Except PyExc (Option Bool) × TileFS × ℕ
  | _, 0, fs, acc => (.ok none, fs, acc)
  | i, fuel + 1, fs, acc =>
    match fetch_body cfg fs now (net i) with
    | some (r, fs1, att) => (r, fs1, acc + att)
    | none => fetch_loop cfg now net (i + 1) fuel fs acc

/-- Result of MapTile.fetch: the returned value or escaped exception, the
final file state, and the number of real network attempts made. -/
structure FetchOut where
  result : Except PyExc (Option Bool)
  fs : TileFS
  attempts : ℕ
  deriving Repr

/-- MapTile.fetch, lines 312-340: return True at once when is_local
holds, otherwise run the retry loop. -/
def fetch (cfg : MapConfig) (fs : TileFS) (now : ℤ) (net : ℕ → NetOutcome) :
    FetchOut :=
  match is_local cfg fs now with
  | .error e => ⟨.error e, fs, 0⟩
  | .ok true => ⟨.ok (some true), fs, 0⟩
  | .ok false =>
    match fetch_loop cfg now net 0 10 fs 0 with
    | (r, fs1, att) => ⟨r, fs1, att⟩

/-- MapTile.remote_path, lines 412-422: the remote base url plus the
relative tile path, with the _map_url_key attribute appended when it is
truthy.  Note that this reads _map_url_key, not the _map_key attribute
that set_map_info assigns. -/
def remote_path (cfg : MapConfig) (zoom : ℕ) (x y : ℤ) : String :=
  let rp := cfg.map_url ++ tile_path zoom x y
  match cfg.map_url_key with
  | none => rp
  | some k => if k.isEmpty then rp else rp ++ k

/-! Concrete instances used by scenario theorems and witnesses. -/

/-- Configuration of the documented scenario: tile server
http://tiles.example/ and no access key. -/
def cfgScenario : MapConfig :=
  ⟨some "/tmp/maps", true, "http://tiles.example/", none, none, 0⟩

/-- A generic online configuration with lifetime 0 (never expire). -/
def cfgOnline : MapConfig := ⟨some "maps", true, "http://u/", none, none, 0⟩

/-- An online configuration with a 60 second tile lifetime. -/
def cfgLife : MapConfig := ⟨some "maps", true, "http://u/", none, none, 60⟩

/-- A configuration with the connected flag off. -/
def cfgOffline : MapConfig := ⟨some "maps", false, "http://u/", none, none, 0⟩

/-- A configuration whose base directory was never set. -/
def cfgNoBase : MapConfig := ⟨none, true, "http://u/", none, none, 0⟩

/-- File state with neither the tile file nor the bad marker. -/
def fsEmpty : TileFS := ⟨none, none⟩

/-- File state with only a bad marker, last modified at time 0. -/
def fsBadZero : TileFS := ⟨none, some 0⟩

/-- File state with only the tile file, last modified at time 0. -/
def fsTileZero : TileFS := ⟨some 0, none⟩

/-- A network that always answers with a successful transfer. -/
def netSuccess : ℕ → NetOutcome := fun _ => .success

/-- A network that always answers HTTP 404. -/
def net404 : ℕ → NetOutcome := fun _ => .httpError 404

/-! Helper lemmas. -/

/-- Python int() of a value that is already an integer is that integer. -/
theorem truncInt_intCast (n : ℤ) : truncInt (n : ℝ) = n := by
  unfold truncInt
  split <;> simp

/-- The secant of the arctangent of a hyperbolic sine is the matching
hyperbolic cosine. -/
theorem one_div_cos_arctan_sinh (t : ℝ) :
    1 / Real.cos (Real.arctan (Real.sinh t)) = Real.cosh t := by
  rw [Real.cos_arctan, one_div_one_div,
    show 1 + Real.sinh t ^ 2 = Real.cosh t ^ 2 from (Real.cosh_sq' t).symm]
  exact Real.sqrt_sq (Real.cosh_pos t).le

/-- Core round trip: deg2num recovers the tile numbers that num2deg was
given, for every zoom level and all integer tile numbers. -/
theorem deg2num_num2deg (zoom : ℕ) (x y : ℤ) :
    deg2num zoom (num2deg zoom x y) = (x, y) := by
  have hne : ((2 : ℝ) ^ zoom) ≠ 0 := by positivity
  have hpi : Real.pi ≠ 0 := Real.pi_ne_zero
  simp only [deg2num, num2deg]
  have h1 : ((x : ℝ) / 2 ^ zoom * 360 - 180 + 180) / 360 * 2 ^ zoom
      = ((x : ℤ) : ℝ) := by
    field_simp
    ring
  have h2 : Real.arctan (Real.sinh (Real.pi * (1 - 2 * (y : ℝ) / 2 ^ zoom)))
        * 180 / Real.pi * Real.pi / 180
      = Real.arctan (Real.sinh (Real.pi * (1 - 2 * (y : ℝ) / 2 ^ zoom))) := by
    field_simp
  rw [h1, h2, Real.tan_arctan, one_div_cos_arctan_sinh, Real.sinh_add_cosh,
    Real.log_exp]
  have h3 : (1 - Real.pi * (1 - 2 * (y : ℝ) / 2 ^ zoom) / Real.pi) / 2
        * 2 ^ zoom
      = ((y : ℤ) : ℝ) := by
    field_simp
    ring
  rw [h3, truncInt_intCast, truncInt_intCast]

/-- C8: for every zoom z and integers (x, y) with 0 <= x < 2 pow z and
0 <= y < 2 pow z, converting the tile position back to indices round
trips: deg2num after num2deg is the identity on valid tile indices. -/
theorem C8_roundtrip (zoom : ℕ) (x y : ℤ)
    (hx0 : 0 ≤ x) (hx1 : x < 2 ^ zoom) (hy0 : 0 ≤ y) (hy1 : y < 2 ^ zoom) :
    deg2num zoom (num2deg zoom x y) = (x, y) :=
  deg2num_num2deg zoom x y

/-- Witness for C8 at zoom 1 and tile (0, 0). -/
theorem C8_roundtrip_witness : deg2num 1 (num2deg 1 0 0) = (0, 0) :=
  C8_roundtrip 1 0 0 (by norm_num) (by norm_num) (by norm_num) (by norm_num)

/-- C9: the containment test of a tile is a strict interior test against
tile_edges, and it rejects the northwest and southeast corner positions
of the tile itself, which lie exactly on the boundary. -/
theorem C9_contains_strict (zoom : ℕ) (x y : ℤ) (p : MapPosition) :
    (tile_contains_point zoom x y p ↔
      (((tile_edges zoom x y).1 < p.latitude ∧
        p.latitude < (tile_edges zoom x y).2.2.1) ∧
       ((tile_edges zoom x y).2.1 < p.longitude ∧
        p.longitude < (tile_edges zoom x y).2.2.2))) ∧
    ¬ tile_contains_point zoom x y (num2deg zoom x y) ∧
    ¬ tile_contains_point zoom x y (num2deg zoom (x + 1) (y + 1)) := by
  refine ⟨Iff.rfl, fun h => ?_, fun h => ?_⟩
  · exact lt_irrefl _ h.1.2
  · exact lt_irrefl _ h.1.1

/-- C4: evaluation showing the access key bug.  set_map_info stores the
configured key in the _map_key attribute, while remote_path reads the
distinct _map_url_key attribute, which is initialized to None and never
assigned anywhere in the repository; starting from any state in which
_map_url_key still holds its initial None, a key configured through
set_map_info is therefore never appended, and remote_path is always the
base url plus the relative path.  At zoom 3, position (0, 0) maps to
tile (4, 4), and with base url http://tiles.example/ the produced url is
http://tiles.example/3/4/4.png even though a key was configured. -/
theorem C4_key_never_appended (cfg : MapConfig) (b u k : String)
    (K : Option String) (zoom : ℕ) (x y : ℤ)
    (h0 : cfg.map_url_key = none) :
    (set_map_info cfg b u (some k)).map_key = some k ∧
    remote_path (set_map_info cfg b u K) zoom x y =
      u ++ tile_path zoom x y ∧
    deg2num 3 ⟨0, 0⟩ = (4, 4) ∧
    remote_path (set_map_info cfg "/tmp/maps" "http://tiles.example/"
        (some "SECRETKEY")) 3 4 4 = "http://tiles.example/3/4/4.png" := by
  refine ⟨rfl, ?_, ?_, ?_⟩
  · simp [remote_path, set_map_info, h0]
  · simp only [deg2num]
    have h0 : (0 : ℝ) * Real.pi / 180 = 0 := by ring
    rw [h0, Real.tan_zero, Real.cos_zero]
    have hx : ((0 : ℝ) + 180) / 360 * 2 ^ (3 : ℕ) = ((4 : ℤ) : ℝ) := by
      norm_num
    have hy : ((1 : ℝ) - Real.log (0 + 1 / 1) / Real.pi) / 2 * 2 ^ (3 : ℕ)
        = ((4 : ℤ) : ℝ) := by
      norm_num [Real.log_one]
    rw [hx, hy, truncInt_intCast]
  · simp [remote_path, set_map_info, h0]
    rfl

/-- Witness for C4: configuring the scenario url together with an access
key through set_map_info still produces the url without the key. -/
theorem C4_key_never_appended_witness :
    (set_map_info cfgScenario "/tmp/maps" "http://tiles.example/"
        (some "SECRETKEY")).map_key = some "SECRETKEY" ∧
    remote_path (set_map_info cfgScenario "/tmp/maps" "http://tiles.example/"
        (some "SECRETKEY")) 3 4 4 =
      "http://tiles.example/" ++ tile_path 3 4 4 ∧
    deg2num 3 ⟨0, 0⟩ = (4, 4) ∧
    remote_path (set_map_info cfgScenario "/tmp/maps" "http://tiles.example/"
        (some "SECRETKEY")) 3 4 4 = "http://tiles.example/3/4/4.png" :=
  C4_key_never_appended cfgScenario "/tmp/maps" "http://tiles.example/"
    "SECRETKEY" (some "SECRETKEY") 3 4 4 rfl

/-- First step of the retry loop at its actual fuel of 10 iterations. -/
theorem fetch_loop_ten (cfg : MapConfig) (now : ℤ) (net : ℕ → NetOutcome)
    (fs : TileFS) :
    fetch_loop cfg now net 0 10 fs 0 =
      (match fetch_body cfg fs now (net 0) with
        | some (r, fs1, att) => (r, fs1, 0 + att)
        | none => fetch_loop cfg now net 1 9 fs 0) := rfl

/-- When the cache check fails, fetch is the retry loop. -/
theorem fetch_eq_loop (cfg : MapConfig) (fs : TileFS) (now : ℤ)
    (net : ℕ → NetOutcome) (h : is_local cfg fs now = .ok false) :
    fetch cfg fs now net =
      (match fetch_loop cfg now net 0 10 fs 0 with
        | (r, fs1, att) => ⟨r, fs1, att⟩) := by
  unfold fetch
  rw [h]

/-- C2: given a configured base directory, is_local returns false when
neither the tile file nor the bad marker exists; when a file is found it
returns true when the lifetime is 0 or the connected flag is off, and
otherwise returns true exactly when the age of the found file is
strictly below the lifetime.  The found file is the tile file when it
exists and the bad marker otherwise. -/
theorem C2_is_local_spec (cfg : MapConfig) (fs : TileFS) (now t : ℤ)
    (hb : py_falsy cfg.base_dir = false) :
    (fs.tileMTime = none → fs.badMTime = none →
      is_local cfg fs now = .ok false) ∧
    ((fs.tileMTime = some t ∨ (fs.tileMTime = none ∧ fs.badMTime = some t)) →
      ((cfg.tile_lifetime = 0 ∨ cfg.connected = false →
         is_local cfg fs now = .ok true) ∧
       (cfg.tile_lifetime ≠ 0 → cfg.connected = true →
         (is_local cfg fs now = .ok true ↔
           now - t < cfg.tile_lifetime)))) := by
  unfold is_local
  rw [hb]
  constructor
  · intro h1 h2
    simp [h1, h2]
  · intro hfound
    have hor : (fs.tileMTime <|> fs.badMTime) = some t := by
      rcases hfound with h1 | ⟨h1, h2⟩
      · simp [h1]
      · simp [h1, h2]
    rw [hor]
    constructor
    · intro hc
      rcases hc with h0 | h0 <;> simp [h0]
    · intro h0 hc
      simp [h0, hc]

/-- Witness for C2: online, lifetime 60, tile file modified at time 0,
queried at time 30. -/
theorem C2_is_local_spec_witness :
    (fsTileZero.tileMTime = none → fsTileZero.badMTime = none →
      is_local cfgLife fsTileZero 30 = .ok false) ∧
    ((fsTileZero.tileMTime = some 0 ∨
        (fsTileZero.tileMTime = none ∧ fsTileZero.badMTime = some 0)) →
      ((cfgLife.tile_lifetime = 0 ∨ cfgLife.connected = false →
         is_local cfgLife fsTileZero 30 = .ok true) ∧
       (cfgLife.tile_lifetime ≠ 0 → cfgLife.connected = true →
         (is_local cfgLife fsTileZero 30 = .ok true ↔
           (30 : ℤ) - 0 < cfgLife.tile_lifetime)))) :=
  C2_is_local_spec cfgLife fsTileZero 30 0 rfl

/-- C1: when the cache check fails, a single call to fetch makes at most
one real network attempt, its outcome is decided by the first network
answer alone (no second iteration of the retry loop executes), and the
first outcome maps to the returned value: success gives true, not found
gives false, and every exception of the MapFetchUrlException family
gives false. -/
theorem C1_single_attempt (cfg : MapConfig) (fs : TileFS) (now : ℤ)
    (net : ℕ → NetOutcome) (h : is_local cfg fs now = .ok false) :
    (fetch cfg fs now net).attempts ≤ 1 ∧
    fetch cfg fs now net = fetch cfg fs now (fun _ => net 0) ∧
    ((fetch_url cfg fs now (net 0)).1 = .ok true →
      (fetch cfg fs now net).result = .ok (some true)) ∧
    ((fetch_url cfg fs now (net 0)).1 = .error .mapTileNotFound →
      (fetch cfg fs now net).result = .ok (some false)) ∧
    ((fetch_url cfg fs now (net 0)).1 = .error .mapNotConnected →
      (fetch cfg fs now net).result = .ok (some false)) ∧
    ((fetch_url cfg fs now (net 0)).1 = .error .mapFetchError →
      (fetch cfg fs now net).result = .ok (some false)) := by
  rw [fetch_eq_loop cfg fs now net h, fetch_eq_loop cfg fs now
    (fun _ => net 0) h, fetch_loop_ten, fetch_loop_ten]
  rcases hc : cfg.connected with _ | _
  · simp [fetch_body, fetch_url, hc, isMapFetchUrlExc]
  · rcases hn : net 0 with _ | code | _
    · simp [fetch_body, fetch_url, hc, hn, isMapFetchUrlExc]
    · by_cases h4 : code = 404
      · simp [fetch_body, fetch_url, hc, hn, h4, isMapFetchUrlExc]
      · simp [fetch_body, fetch_url, hc, hn, h4, isMapFetchUrlExc]
    · simp [fetch_body, fetch_url, hc, hn, isMapFetchUrlExc]

/-- Witness for C1: online configuration, empty cache, a network that
answers with a successful transfer. -/
theorem C1_single_attempt_witness :
    (fetch cfgOnline fsEmpty 0 netSuccess).attempts ≤ 1 ∧
    fetch cfgOnline fsEmpty 0 netSuccess =
      fetch cfgOnline fsEmpty 0 (fun _ => netSuccess 0) ∧
    ((fetch_url cfgOnline fsEmpty 0 (netSuccess 0)).1 = .ok true →
      (fetch cfgOnline fsEmpty 0 netSuccess).result = .ok (some true)) ∧
    ((fetch_url cfgOnline fsEmpty 0 (netSuccess 0)).1 =
        .error .mapTileNotFound →
      (fetch cfgOnline fsEmpty 0 netSuccess).result = .ok (some false)) ∧
    ((fetch_url cfgOnline fsEmpty 0 (netSuccess 0)).1 =
        .error .mapNotConnected →
      (fetch cfgOnline fsEmpty 0 netSuccess).result = .ok (some false)) ∧
    ((fetch_url cfgOnline fsEmpty 0 (netSuccess 0)).1 =
        .error .mapFetchError →
      (fetch cfgOnline fsEmpty 0 netSuccess).result = .ok (some false)) :=
  C1_single_attempt cfgOnline fsEmpty 0 netSuccess rfl

/-- C7: with the connected flag off, fetch_url raises MapNotConnected,
makes no network attempt, and leaves the file state unchanged. -/
theorem C7_not_connected (cfg : MapConfig) (fs : TileFS) (now : ℤ)
    (net : NetOutcome) (h : cfg.connected = false) :
    fetch_url cfg fs now net = (.error .mapNotConnected, fs, 0) := by
  simp [fetch_url, h]

/-- Witness for C7 on the offline configuration. -/
theorem C7_not_connected_witness :
    fetch_url cfgOffline fsEmpty 0 .success =
      (.error .mapNotConnected, fsEmpty, 0) :=
  C7_not_connected cfgOffline fsEmpty 0 .success rfl

/-- C10: with the base directory unset, _local_path returns None, and
is_local, fetch and get_local_tile_path all raise TypeError on the None
path instead of returning a false or absent result. -/
theorem C10_requires_base_dir (cfg : MapConfig) (fs : TileFS) (now : ℤ)
    (net : ℕ → NetOutcome) (zoom : ℕ) (x y : ℤ)
    (h : py_falsy cfg.base_dir = true) :
    _local_path cfg zoom x y = none ∧
    is_local cfg fs now = .error .typeError ∧
    fetch cfg fs now net = ⟨.error .typeError, fs, 0⟩ ∧
    get_local_tile_path cfg zoom x y fs = .error .typeError := by
  have hp : _local_path cfg zoom x y = none := by
    simp [_local_path, h]
  have hl : is_local cfg fs now = .error .typeError := by
    simp [is_local, h]
  refine ⟨hp, hl, ?_, ?_⟩
  · unfold fetch
    rw [hl]
  · simp [get_local_tile_path, hp]

/-- Witness for C10 on the configuration with no base directory. -/
theorem C10_requires_base_dir_witness :
    _local_path cfgNoBase 3 4 4 = none ∧
    is_local cfgNoBase fsEmpty 0 = .error .typeError ∧
    fetch cfgNoBase fsEmpty 0 netSuccess = ⟨.error .typeError, fsEmpty, 0⟩ ∧
    get_local_tile_path cfgNoBase 3 4 4 fsEmpty = .error .typeError :=
  C10_requires_base_dir cfgNoBase fsEmpty 0 netSuccess 3 4 4 rfl

/-- C3: evaluation of fetch_url while connected.  A transport failure
that is not an HTTPError, such as a DNS failure, timeout or connection
reset surfacing as urllib.error.URLError, escapes raw instead of being
wrapped in MapFetchError, because only HTTPError is caught; HTTP 404
raises MapTileNotFound and any other HTTP code raises MapFetchError. -/
theorem C3_urlerror_escapes :
    fetch_url cfgOnline fsEmpty 7 .urlError =
      (.error .urlError, fsEmpty, 1) ∧
    PyExc.urlError ≠ PyExc.mapFetchError ∧
    isMapFetchUrlExc .urlError = false ∧
    fetch_url cfgOnline fsEmpty 7 (.httpError 404) =
      (.error .mapTileNotFound, fsEmpty, 1) ∧
    fetch_url cfgOnline fsEmpty 7 (.httpError 500) =
      (.error .mapFetchError, fsEmpty, 1) :=
  ⟨rfl, by decide, rfl, rfl, rfl⟩

/-- C5: a fetch whose network attempt receives HTTP 404 creates the bad
marker and returns false after exactly one attempt; a fetch issued right
afterwards on the resulting state makes no network request and returns
true, because the fresh bad marker makes the cache check succeed. -/
theorem C5_notfound_caching (cfg : MapConfig) (fs : TileFS) (now : ℤ)
    (net net2 : ℕ → NetOutcome)
    (hb : py_falsy cfg.base_dir = false)
    (hc : cfg.connected = true)
    (hL : 0 ≤ cfg.tile_lifetime)
    (ht : fs.tileMTime = none)
    (hnl : is_local cfg fs now = .ok false)
    (h404 : net 0 = .httpError 404) :
    (fetch cfg fs now net).result = .ok (some false) ∧
    (fetch cfg fs now net).fs.badMTime = some now ∧
    (fetch cfg fs now net).attempts = 1 ∧
    (fetch cfg (fetch cfg fs now net).fs now net2).attempts = 0 ∧
    (fetch cfg (fetch cfg fs now net).fs now net2).result =
      .ok (some true) := by
  have h1 : fetch cfg fs now net =
      ⟨.ok (some false), { fs with badMTime := some now }, 1⟩ := by
    rw [fetch_eq_loop cfg fs now net hnl, fetch_loop_ten]
    simp [fetch_body, fetch_url, hc, h404]
  have h2 : is_local cfg { fs with badMTime := some now } now = .ok true := by
    unfold is_local
    rw [hb]
    simp only [ht]
    rcases eq_or_ne cfg.tile_lifetime 0 with h0 | h0
    · simp [h0]
    · have hpos : (0 : ℤ) < cfg.tile_lifetime := lt_of_le_of_ne hL (Ne.symm h0)
      simp [h0, hc, hpos]
  have h3 : fetch cfg { fs with badMTime := some now } now net2 =
      ⟨.ok (some true), { fs with badMTime := some now }, 0⟩ := by
    unfold fetch
    rw [h2]
  rw [h1]
  refine ⟨rfl, rfl, rfl, ?_, ?_⟩ <;> simp [h3]

/-- Witness for C5: online, lifetime 60, empty cache, network answers
HTTP 404 at time 5, then a second fetch at the same time. -/
theorem C5_notfound_caching_witness :
    (fetch cfgLife fsEmpty 5 net404).result = .ok (some false) ∧
    (fetch cfgLife fsEmpty 5 net404).fs.badMTime = some 5 ∧
    (fetch cfgLife fsEmpty 5 net404).attempts = 1 ∧
    (fetch cfgLife (fetch cfgLife fsEmpty 5 net404).fs 5 netSuccess).attempts
      = 0 ∧
    (fetch cfgLife (fetch cfgLife fsEmpty 5 net404).fs 5 netSuccess).result
      = .ok (some true) :=
  C5_notfound_caching cfgLife fsEmpty 5 net404 netSuccess rfl rfl (by decide)
    rfl rfl rfl

/-- C6 counterexample: a bad marker alone does not suppress network
access for every configuration and elapsed time.  With the marker
modified at time 0, an online configuration with lifetime 60, and a
query at time 61, the marker is stale, the cache check fails and fetch
makes a real network attempt while the marker is still present. -/
theorem C6_counterexample :
    fsBadZero.badMTime = some 0 ∧
    is_local cfgLife fsBadZero 61 = .ok false ∧
    (fetch cfgLife fsBadZero 61 net404).attempts = 1 :=
  ⟨rfl, rfl, rfl⟩

/-- C6 amended: once a bad marker exists for a tile (and the tile file
is absent), a later fetch makes no network call and returns true
whenever the lifetime is 0, or the connected flag is off, or the time
elapsed since the marker was written is strictly below the lifetime; an
expired marker instead lets fetch attempt the network again. -/
theorem C6_amended_bad_marker (cfg : MapConfig) (fs : TileFS) (now t : ℤ)
    (net : ℕ → NetOutcome)
    (hb : py_falsy cfg.base_dir = false)
    (htile : fs.tileMTime = none)
    (hbad : fs.badMTime = some t)
    (hfresh : cfg.tile_lifetime = 0 ∨ cfg.connected = false ∨
      now - t < cfg.tile_lifetime) :
    (fetch cfg fs now net).attempts = 0 ∧
    (fetch cfg fs now net).result = .ok (some true) := by
  have h2 : is_local cfg fs now = .ok true := by
    unfold is_local
    rw [hb]
    simp only [htile, hbad]
    rcases hfresh with h0 | h0 | h0
    · simp [h0]
    · simp [h0]
    · rcases eq_or_ne cfg.tile_lifetime 0 with hz | hz
      · simp [hz]
      · rcases hcon : cfg.connected with _ | _
        · simp [hcon]
        · simp [hz, hcon, h0]
  unfold fetch
  rw [h2]
  exact ⟨rfl, rfl⟩

/-- Witness for the amended C6: bad marker written at time 0, online,
lifetime 60, fetch at time 30. -/
theorem C6_amended_bad_marker_witness :
    (fetch cfgLife fsBadZero 30 net404).attempts = 0 ∧
    (fetch cfgLife fsBadZero 30 net404).result = .ok (some true) :=
  C6_amended_bad_marker cfgLife fsBadZero 30 0 net404 rfl rfl rfl
    (Or.inr (Or.inr (by decide)))

end MapTileModel
